import Mathlib

/-!
Verification development for the 5GNR/LTE/SpurSearch/STN RF-measurement
driver (files `src/main.py`, `src/measurements/nr5g_fr1.py`,
`src/measurements/spur_search.py`, `src/measurements/SubThermalNoise.py`,
`src/utils/utils.py`).

Modelling conventions:
* Python floats are modelled as exact rationals (`ℚ`); the numeric literals
  `1e9`, `1e-3`, `10e6` from the source appear as the exact fractions
  `1000000000`, `1/1000`, `10000000`.
* A Python value that is either a float or `float('nan')` is modelled by
  the inductive type `PFloat`.
* Instrument I/O is modelled by oracles: each SCPI write/query that a
  method performs is a field of an oracle structure holding the outcome of
  that call, `Except String α` (`Except.error` = the call raised).
* A Python `dict` used as a timing map is modelled as an association list
  in insertion order; a later binding for a key overrides an earlier one.
  In the modelled code every key is bound once per test set except
  `"VSA_get_ACLR"`, whose default `0.0` is overridden when ACLR is
  measured.
* `try/except` at a test-set boundary is modelled by running the body in
  an error monad that also returns the state reached at the raise point
  (Python globals mutated before an exception persist).
-/

/-- A Python float value: either a numeric value (modelled exactly as a
rational) or `float('nan')`. -/
inductive PFloat where
  | val (q : ℚ)
  | nan
deriving DecidableEq

/-- The per-test-set configuration pair built in `run_nr5g_measurement`
(`main.py` lines 55-58): `{"waveform_file": ..., "setup_file": ...}`,
each entry an optional path string. -/
structure MeasConfig where
  waveform_file : Option String
  setup_file : Option String
deriving DecidableEq

/-- The module-level globals `previous_config` and `previous_freq` of
`main.py` (lines 30-31) that the configuration-change tracking reads and
writes. -/
structure TrackerState where
  previous_config : Option MeasConfig
  previous_freq : Option ℚ
deriving DecidableEq

/-- The reconfiguration decision of `main.py` line 64:
`previous_config != current_config` (the global starts as `None`, which
compares unequal to every dict). -/
def shouldReconfigure (previous : Option MeasConfig) (current : MeasConfig) : Bool :=
  decide (previous ≠ some current)

/-- The retune decision of `main.py` line 74:
`previous_freq is None or abs(previous_freq - freq) > 1e-3`. -/
def shouldRetune (previous_freq : Option ℚ) (freq : ℚ) : Bool :=
  match previous_freq with
  | none => true
  | some p => decide (|p - freq| > 1/1000)

/-- The per-test-set timing map (`timings = {}` in each runner of
`main.py`): operation name to elapsed seconds, in insertion order. -/
abbrev Timings := List (String × ℚ)

/-- Setting a key in the timing dict (`timings["k"] = v`).  Modelled as an
append; a later entry for the same key overrides an earlier one. -/
def dictSet (d : Timings) (k : String) (v : ℚ) : Timings :=
  d ++ [(k, v)]

/-- The claim-relevant fields of the NR5G / LTE result dict appended by
`run_nr5g_measurement` (`main.py` lines 108-130) and
`run_lte_measurement` (lines 197-219).  The purely cosmetic fields
(`config` summary string, descriptor echo fields) are not modelled. -/
structure MeasRecord where
  test_set : ℕ
  center_frequency_hz : ℚ
  power_dbm : ℚ
  evm : PFloat
  ch_pwr : Option ℚ
  acp_lower : Option ℚ
  acp_upper : Option ℚ
  alt_lower : Option ℚ
  alt_upper : Option ℚ
  timings : Timings
deriving DecidableEq

/-- The claim-relevant fields of the SpurSearch result dict appended by
`run_spur_search_measurement` (`main.py` lines 249-262 on success, lines
266-277 on failure).  `fundamental_frequency_hz` is `None` in the failure
placeholder. -/
structure SpurRecord where
  test_set : ℕ
  fundamental_frequency_hz : Option ℚ
  spurs : List (ℚ × ℚ)
  error : Option String
  timings : Timings
deriving DecidableEq

/-- One entry of the `meas` list built by `run_stn_measurement`
(`main.py` lines 298, 305): `{"marker": float-or-None, "meas_time": t}`. -/
structure STNMarker where
  marker : Option ℚ
  meas_time : ℚ
deriving DecidableEq

/-- The statistics computed by `option_functions.get_Array_stats`
(`SubThermalNoise.py` lines 92-110).  The source formats these values into
a string; `np.std` is the square root of `stdDevSq` (kept squared so the
model stays within `ℚ`). -/
structure ArrayStats where
  min : ℚ
  max : ℚ
  avg : ℚ
  stdDevSq : ℚ
  delta : ℚ
deriving DecidableEq

/-- The claim-relevant fields of the STN result dict appended by
`run_stn_measurement` (`main.py` lines 314-328 on success, lines 331-343
on failure).  `stats` holds the computed statistic values; the source
stores their formatted string. -/
structure STNRecord where
  test_set : ℕ
  center_frequency_hz : ℚ
  iterations : ℕ
  markers : List STNMarker
  stats : Option ArrayStats
  timings : Timings
  total_test_time : ℚ
  error : Option String
deriving DecidableEq

/-- The tagged union of result records: one constructor per test family
appended to the shared module-level `results` list of `main.py`. -/
inductive ResultEntry where
  | nr5g (r : MeasRecord)
  | lte (r : MeasRecord)
  | spur (r : SpurRecord)
  | stn (r : STNRecord)
deriving DecidableEq

/-- The module-level mutable state of `main.py`: the shared `results`
collection plus the two tracking globals. -/
structure MainState where
  results : List ResultEntry
  previous_config : Option MeasConfig
  previous_freq : Option ℚ
deriving DecidableEq

/-- State-and-error monad for a test-set body: Python statements mutate
the tracker globals and may raise; an exception carries out the state
reached so far (a caught exception does not roll back global mutations). -/
def PyM (α : Type) := TrackerState → TrackerState × Except String α

instance : Monad PyM where
  pure a := fun s => (s, Except.ok a)
  bind m f := fun s =>
    match m s with
    | (s', Except.ok a) => f a s'
    | (s', Except.error e) => (s', Except.error e)

/-- Run an instrument call: the state is untouched, the outcome is the
oracle's response (raising = `Except.error`). -/
def PyM.liftE (x : Except String α) : PyM α := fun s => (s, x)

/-- Read the tracker globals. -/
def PyM.get : PyM TrackerState := fun s => (s, Except.ok s)

/-- Write the tracker globals. -/
def PyM.set (s' : TrackerState) : PyM Unit := fun _ => (s', Except.ok ())

@[simp] theorem PyM.pure_apply (a : α) (s : TrackerState) :
    (pure a : PyM α) s = (s, Except.ok a) := rfl

@[simp] theorem PyM.bind_apply (m : PyM α) (f : α → PyM β) (s : TrackerState) :
    (m >>= f) s =
      match m s with
      | (s', Except.ok a) => f a s'
      | (s', Except.error e) => (s', Except.error e) := rfl

@[simp] theorem PyM.liftE_apply (x : Except String α) (s : TrackerState) :
    PyM.liftE x s = (s, x) := rfl

@[simp] theorem PyM.get_apply (s : TrackerState) : PyM.get s = (s, Except.ok s) := rfl

@[simp] theorem PyM.set_apply (s' s : TrackerState) : PyM.set s' s = (s', Except.ok ()) := rfl

/-! ### Waveform filename parsing (`nr5g_fr1.py`, `_extract_waveform_params`)

The source matches the basename against the regular expression
`^5GNR_(UL|DL)_(\d+MHz)_(QPSK|16QAM|64QAM|256QAM|1024QAM)_(\d+kHz)_(\d+RB)_(\d+RBO)\.wv$`
and converts the numeric groups with `int(...)` after stripping the unit
suffix.  Since no two alternatives of any group are prefixes of one
another, and each `\d+` group is followed by a non-digit literal, the
regex match is equivalent to the deterministic left-to-right parser
below. -/

/-- Consume an exact literal prefix, returning the rest of the input. -/
def stripLit : List Char → List Char → Option (List Char)
  | [], s => some s
  | _ :: _, [] => none
  | l :: ls, c :: cs => if c = l then stripLit ls cs else none

/-- Maximal run of leading decimal digits (the `\d+` greedy match). -/
def takeDigits : List Char → List Char × List Char
  | [] => ([], [])
  | c :: cs =>
    if c.isDigit then
      let (d, r) := takeDigits cs
      (c :: d, r)
    else ([], c :: cs)

/-- A `\d+` group: at least one digit. -/
def parseDigits (s : List Char) : Option (List Char × List Char) :=
  let (d, r) := takeDigits s
  if d = [] then none else some (d, r)

/-- Decimal value of a digit string — what Python's `int(...)` returns on
the stripped group. -/
def digitsVal (ds : List Char) : ℕ :=
  ds.foldl (fun a c => 10 * a + (c.toNat - 48)) 0

/-- The `(UL|DL)` group. -/
def parseLinkDir (s : List Char) : Option (String × List Char) :=
  match stripLit "UL".toList s with
  | some r => some ("UL", r)
  | none =>
    match stripLit "DL".toList s with
    | some r => some ("DL", r)
    | none => none

/-- The `(QPSK|16QAM|64QAM|256QAM|1024QAM)` group, tried in the regex's
alternation order. -/
def parseModTok (s : List Char) : Option (String × List Char) :=
  match stripLit "QPSK".toList s with
  | some r => some ("QPSK", r)
  | none =>
    match stripLit "16QAM".toList s with
    | some r => some ("16QAM", r)
    | none =>
      match stripLit "64QAM".toList s with
      | some r => some ("64QAM", r)
      | none =>
        match stripLit "256QAM".toList s with
        | some r => some ("256QAM", r)
        | none =>
          match stripLit "1024QAM".toList s with
          | some r => some ("1024QAM", r)
          | none => none

/-- The dict built by `std_insr_driver._extract_waveform_params`
(`nr5g_fr1.py` lines 96-106). -/
structure WaveformParams where
  signal_type : String
  link_direction : String
  bandwidth_mhz : ℕ
  modulation : String
  subcarrier_spacing_khz : ℕ
  resource_blocks : ℕ
  resource_block_offset : ℕ
  duplexing : String
deriving DecidableEq

/-- `std_insr_driver._extract_waveform_params` (`nr5g_fr1.py` lines
86-109), applied to the basename: match the filename against the grammar
and decode every group; `none` models the `{}` returned when the regex
does not match.  `duplexing` is `"FDD" if link_direction == "UL" else
"TDD"` (line 105). -/
def extract_waveform_params (name : String) : Option WaveformParams := do
  let s1 ← stripLit "5GNR_".toList name.toList
  let (ld, s2) ← parseLinkDir s1
  let s3 ← stripLit "_".toList s2
  let (bwd, s4) ← parseDigits s3
  let s5 ← stripLit "MHz_".toList s4
  let (md, s6) ← parseModTok s5
  let s7 ← stripLit "_".toList s6
  let (scsd, s8) ← parseDigits s7
  let s9 ← stripLit "kHz_".toList s8
  let (rbd, s10) ← parseDigits s9
  let s11 ← stripLit "RB_".toList s10
  let (rbod, s12) ← parseDigits s11
  let s13 ← stripLit "RBO.wv".toList s12
  if s13 = [] then
    some { signal_type := "5GNR", link_direction := ld,
           bandwidth_mhz := digitsVal bwd, modulation := md,
           subcarrier_spacing_khz := digitsVal scsd,
           resource_blocks := digitsVal rbd,
           resource_block_offset := digitsVal rbod,
           duplexing := if ld = "UL" then "FDD" else "TDD" }
  else none

/-- A filename that matches the grammar, assembled from its components:
link direction and modulation tokens and the four digit groups. -/
def mkWaveformName (ld md : String) (bw scs rb rbo : List Char) : String :=
  String.mk ("5GNR_".toList ++ ld.toList ++ "_".toList ++ bw ++ "MHz_".toList
    ++ md.toList ++ "_".toList ++ scs ++ "kHz_".toList ++ rb ++ "RB_".toList
    ++ rbo ++ "RBO.wv".toList)

/-! ### Python `float(...)` on instrument response strings -/

/-- The syntactic parts of a decimal float literal: sign, integer digits,
fraction digits, and an optional signed exponent. -/
structure FloatParts where
  neg : Bool
  ip : List Char
  fp : List Char
  eneg : Bool
  ed : Option (List Char)
deriving DecidableEq

/-- The rational value denoted by a decimal float literal. -/
def floatPartsVal (p : FloatParts) : ℚ :=
  let mant : ℚ := (digitsVal p.ip : ℚ) + (digitsVal p.fp : ℚ) / 10 ^ p.fp.length
  let sgn : ℚ := if p.neg then -1 else 1
  match p.ed with
  | none => sgn * mant
  | some ed => sgn * mant * (if p.eneg then 1 / 10 ^ digitsVal ed else 10 ^ digitsVal ed)

/-- Tokenize a decimal float literal: optional sign, digits with optional
fraction (at least one digit overall), optional `e`/`E` exponent with
optional sign and at least one digit, end of string. -/
def parsePyFloatParts (s : String) : Option FloatParts :=
  let cs := s.toList
  let (neg, cs1) : Bool × List Char :=
    match cs with
    | '+' :: r => (false, r)
    | '-' :: r => (true, r)
    | r => (false, r)
  let (ip, cs2) := takeDigits cs1
  let (fp, cs3) : List Char × List Char :=
    match cs2 with
    | '.' :: r => takeDigits r
    | r => ([], r)
  if ip = [] ∧ fp = [] then none
  else
    match cs3 with
    | [] => some { neg := neg, ip := ip, fp := fp, eneg := false, ed := none }
    | 'e' :: r =>
      let (eneg, r1) : Bool × List Char :=
        match r with
        | '+' :: t => (false, t)
        | '-' :: t => (true, t)
        | t => (false, t)
      let (ed, r2) := takeDigits r1
      if ed = [] ∨ r2 ≠ [] then none
      else some { neg := neg, ip := ip, fp := fp, eneg := eneg, ed := some ed }
    | 'E' :: r =>
      let (eneg, r1) : Bool × List Char :=
        match r with
        | '+' :: t => (false, t)
        | '-' :: t => (true, t)
        | t => (false, t)
      let (ed, r2) := takeDigits r1
      if ed = [] ∨ r2 ≠ [] then none
      else some { neg := neg, ip := ip, fp := fp, eneg := eneg, ed := some ed }
    | _ => none

/-- Python's `float(str)` on a decimal literal; `none` models the
`ValueError` raised on a non-numeric string such as `"N/A"`.  Special
spellings like `"nan"`/`"inf"` are outside the modelled domain — the
responses at issue are numeric strings or non-numeric garbage. -/
def parsePyFloat (s : String) : Option ℚ :=
  (parsePyFloatParts s).map floatPartsVal

/-! ### `std_insr_driver.VSA_get_EVM` (`nr5g_fr1.py` lines 233-266) -/

/-- Oracle for one `VSA_get_EVM` call: the outcome of each instrument
write/query the method performs, in source order.  `write_rlev` models
`self.VSA.write(f':DISP:WIND:TRAC:Y:SCAL:RLEV {reflev}')`; its outcome is
modelled as independent of the level argument. -/
structure EvmOracle where
  write_conf : Except String Unit
  query_init1 : Except String String
  query_pep : Except String String
  write_rlev : Except String Unit
  query_adj : Except String String
  query_init2 : Except String String
  query_evm : Except String String

/-- The body of `VSA_get_EVM` inside its outer `try`: any raised
exception is `Except.error`.  The inner `try/except ValueError` around
`float(pep_str)` logs and re-raises, so a non-numeric PEP response is an
error here; a non-numeric final EVM string returns `float('nan')` without
raising (lines 261-263). -/
def VSA_get_EVM_body (o : EvmOracle) : Except String PFloat := do
  let _ ← o.write_conf
  let _ ← o.query_init1
  let pep_str ← o.query_pep
  let _pep ←
    match parsePyFloat pep_str with
    | some v => Except.ok v
    | none => Except.error ("could not convert string to float: " ++ pep_str)
  let _ ← o.write_rlev
  let _ ← o.query_adj
  let _ ← o.query_init2
  let evm_str ← o.query_evm
  match parsePyFloat evm_str with
  | some evm => Except.ok (PFloat.val evm)
  | none => Except.ok PFloat.nan

/-- `VSA_get_EVM` with its outer `except Exception` handler (lines
264-266): every escaping exception is caught and `float('nan')` is
returned.  The result type still permits `Except.error` so that "never
raises" is a theorem about the code, not about the type. -/
def VSA_get_EVM (o : EvmOracle) : Except String PFloat :=
  match VSA_get_EVM_body o with
  | Except.ok v => Except.ok v
  | Except.error _ => Except.ok PFloat.nan

/-! ### `run_nr5g_measurement` / `run_lte_measurement` (`main.py`) -/

/-- The per-test-set inputs read from the test matrix entry at the top of
`run_nr5g_measurement` / `run_lte_measurement` (lines 49-53 / 138-142). -/
structure EvmTestConfig where
  center_frequency_ghz : ℚ
  power_dbm : ℚ
  waveform_file : Option String
  setup_file : Option String
  measure_aclr : Bool
deriving DecidableEq

/-- Oracle for the NR5G / LTE driver instance used by one test set: the
outcome of each timed driver operation the runner may invoke (result
value paired with elapsed seconds from the `method_timer` wrapper), plus
the untimed `VSG_pwr`. -/
structure NR5GInstr where
  VSG_Config : Except String (Unit × ℚ)
  VSA_Config : ℚ → Except String (Unit × ℚ)
  VSx_freq : ℚ → Except String (Unit × ℚ)
  VSG_pwr : ℚ → Except String Unit
  VSA_get_info : Except String (String × ℚ)
  VSA_sweep : Except String (Unit × ℚ)
  VSA_get_EVM : Except String (PFloat × ℚ)
  VSA_get_ACLR : Except String (String × ℚ)

/-- `float(s)` raising `ValueError` on failure, as used by
`map(float, aclr_parts)` in `main.py` line 107. -/
def pyFloat1 (s : String) : Except String ℚ :=
  match parsePyFloat s with
  | some v => Except.ok v
  | none => Except.error ("could not convert string to float: " ++ s)

/-- The body of `run_nr5g_measurement` inside its `try` (`main.py` lines
48-130); `run_lte_measurement` (lines 137-219) is textually identical up
to the type tag and cosmetic defaults, so both share this core.  The
computed record is returned; the caller appends it to `results` (the
append is the last statement of the `try` and cannot itself raise). -/
def run_evm_core (cfg : EvmTestConfig) (ts : ℕ) (instr : NR5GInstr) : PyM MeasRecord := do
  let freq := cfg.center_frequency_ghz * 1000000000
  let pwr := cfg.power_dbm
  let current_config : MeasConfig :=
    { waveform_file := cfg.waveform_file, setup_file := cfg.setup_file }
  let tr ← PyM.get
  let timings0 : Timings := []
  let timings1 ←
    if shouldReconfigure tr.previous_config current_config then do
      let r1 ← PyM.liftE instr.VSG_Config
      let r2 ← PyM.liftE (instr.VSA_Config freq)
      PyM.set { previous_config := some current_config, previous_freq := some freq }
      pure (dictSet (dictSet timings0 "VSG_Config" r1.2) "VSA_Config" r2.2)
    else pure timings0
  let tr2 ← PyM.get
  let timings2 ←
    if shouldRetune tr2.previous_freq freq then do
      let r ← PyM.liftE (instr.VSx_freq freq)
      PyM.set { tr2 with previous_freq := some freq }
      pure (dictSet timings1 "VSx_freq" r.2)
    else pure (dictSet timings1 "VSx_freq" 0)
  let _ ← PyM.liftE (instr.VSG_pwr pwr)
  let ri ← PyM.liftE instr.VSA_get_info
  let timings3 := dictSet timings2 "VSA_get_info" ri.2
  let rs ← PyM.liftE instr.VSA_sweep
  let timings4 := dictSet timings3 "VSA_sweep_evm" rs.2
  let re ← PyM.liftE instr.VSA_get_EVM
  let timings5 := dictSet timings4 "VSA_get_EVM" re.2
  let timings6 := dictSet timings5 "VSA_get_ACLR" 0
  let (aclrFields, timings7) ←
    if cfg.measure_aclr then do
      let ra ← PyM.liftE instr.VSA_get_ACLR
      let timingsA := dictSet timings6 "VSA_get_ACLR" ra.2
      let aclr_vals := ra.1
      if aclr_vals ≠ "" then
        match aclr_vals.splitOn "," with
        | [a, b, c, d, e] => do
          let cp ← PyM.liftE (pyFloat1 a)
          let al ← PyM.liftE (pyFloat1 b)
          let au ← PyM.liftE (pyFloat1 c)
          let bl ← PyM.liftE (pyFloat1 d)
          let bu ← PyM.liftE (pyFloat1 e)
          pure ((some cp, some al, some au, some bl, some bu), timingsA)
        | _ => pure ((none, none, none, none, none), timingsA)
      else pure ((none, none, none, none, none), timingsA)
    else pure ((none, none, none, none, none), timings6)
  pure { test_set := ts, center_frequency_hz := freq, power_dbm := pwr,
         evm := re.1,
         ch_pwr := aclrFields.1, acp_lower := aclrFields.2.1,
         acp_upper := aclrFields.2.2.1, alt_lower := aclrFields.2.2.2.1,
         alt_upper := aclrFields.2.2.2.2, timings := timings7 }

/-- The `try/except` wrapper shared by `run_nr5g_measurement` and
`run_lte_measurement`: on success the record is appended to the shared
`results` list; on an exception the handler (lines 131-132 / 220-221)
only logs — nothing is appended.  Tracker-global mutations made before a
raise persist either way. -/
def runEvmFamily (mk : MeasRecord → ResultEntry) (cfg : EvmTestConfig) (ts : ℕ)
    (instr : NR5GInstr) (st : MainState) : MainState :=
  match run_evm_core cfg ts instr ⟨st.previous_config, st.previous_freq⟩ with
  | (tr, Except.ok rec) =>
    { results := st.results ++ [mk rec],
      previous_config := tr.previous_config, previous_freq := tr.previous_freq }
  | (tr, Except.error _) =>
    { results := st.results,
      previous_config := tr.previous_config, previous_freq := tr.previous_freq }

/-- `run_nr5g_measurement` (`main.py` lines 45-132). -/
def run_nr5g_measurement (cfg : EvmTestConfig) (ts : ℕ) (instr : NR5GInstr)
    (st : MainState) : MainState :=
  runEvmFamily ResultEntry.nr5g cfg ts instr st

/-- `run_lte_measurement` (`main.py` lines 134-221), textually identical
to `run_nr5g_measurement` except for the type tag. -/
def run_lte_measurement (cfg : EvmTestConfig) (ts : ℕ) (instr : NR5GInstr)
    (st : MainState) : MainState :=
  runEvmFamily ResultEntry.lte cfg ts instr st

/-! ### `SpurSearch.get_results` (`spur_search.py` lines 166-210) -/

/-- Oracle for one `get_results` call: the parsed outcomes of the four
instrument interactions.  `count_resp` is the detected-peak count query
already through `int(...)` (a non-numeric response is an error);
`freqs_resp`/`powers_resp` are the comma-split, `float`-parsed frequency
and level lists. -/
structure SpurQueryResponses where
  count_resp : Except String Int
  scale_write : Except String Unit
  freqs_resp : Except String (List ℚ)
  powers_resp : Except String (List ℚ)

/-- The body of `get_results` inside its `try`: query the count; when
positive, query the parallel lists; when their lengths disagree with the
count, return the (still empty) spur list (lines 189-192); otherwise keep
exactly the peaks more than 10 MHz (`exclusion_window_hz = 10e6`) away
from `fundamental_ghz * 1e9` (lines 194-203). -/
def get_results_body (fundamental_ghz : ℚ) (r : SpurQueryResponses) :
    Except String (List (ℚ × ℚ)) := do
  let spur_count ← r.count_resp
  if 0 < spur_count then
    let _ ← r.scale_write
    let freqs ← r.freqs_resp
    let powers ← r.powers_resp
    if (freqs.length : ℤ) ≠ spur_count ∨ (powers.length : ℤ) ≠ spur_count then
      Except.ok []
    else
      let fundamental_hz := fundamental_ghz * 1000000000
      let exclusion_window_hz : ℚ := 10000000
      Except.ok ((freqs.zip powers).filter
        (fun fp => decide (|fp.1 - fundamental_hz| > exclusion_window_hz)))
  else
    Except.ok []

/-- `get_results` with its `except Exception` handler (lines 208-210):
any exception yields `[]`. -/
def get_results (fundamental_ghz : ℚ) (r : SpurQueryResponses) : List (ℚ × ℚ) :=
  match get_results_body fundamental_ghz r with
  | Except.ok spurs => spurs
  | Except.error _ => []

/-! ### `run_spur_search_measurement` (`main.py` lines 223-278) -/

/-- The shapes the `fundamental_frequency_ghz` entry of a spur test can
take: a scalar, a list of frequencies, or a `{"range": {...}}` dict.
The main loop expands lists and ranges into per-frequency driver
instances (lines 470-486) but then passes the RAW `test` dict to
`run_spur_search_measurement` (line 497), so the runner itself sees all
three shapes. -/
inductive FreqInput where
  | scalar (q : ℚ)
  | list (qs : List ℚ)
  | range (start_ghz stop_ghz step_mhz : ℚ)
deriving DecidableEq

/-- The per-test-set inputs of `run_spur_search_measurement` as read at
lines 226-229 (`fundamental_frequency_ghz` in any of its three shapes,
and the scalar knobs with their defaults already applied). -/
structure SpurTestConfig where
  fundamental_ghz : FreqInput
  rbw_mhz : ℚ
  spur_limit_dbm : ℚ
  power_dbm : ℚ
deriving DecidableEq

/-- Oracle for the SpurSearch driver instance used by one test set: the
`fundamental_ghz` attribute set by the constructor (read back by the
runner for list inputs, line 232) and the outcome of each timed
operation the runner invokes. -/
structure SpurInstr where
  fundamental_ghz : ℚ
  VSG_config : Except String (Unit × ℚ)
  VSA_config : Except String (Unit × ℚ)
  measure : Except String (Unit × ℚ)
  get_results : Except String (List (ℚ × ℚ) × ℚ)

/-- The instrument-operation sequence of the `try` body (lines 239-263),
run after the fundamental has been resolved to a scalar.  An error
carries the `timings` dict as filled at the raise point, because the
`except` handler reads that local (lines 266-277). -/
def run_spur_search_ops (fundamental_ghz : ℚ) (ts : ℕ) (instr : SpurInstr) :
    Except (String × Timings) SpurRecord :=
  match instr.VSG_config with
  | Except.error e => Except.error (e, [])
  | Except.ok (_, t1) =>
    let tm1 := dictSet [] "VSG_config" t1
    match instr.VSA_config with
    | Except.error e => Except.error (e, tm1)
    | Except.ok (_, t2) =>
      let tm2 := dictSet tm1 "VSA_config" t2
      match instr.measure with
      | Except.error e => Except.error (e, tm2)
      | Except.ok (_, t3) =>
        let tm3 := dictSet tm2 "measure" t3
        match instr.get_results with
        | Except.error e => Except.error (e, tm3)
        | Except.ok (results_data, t4) =>
          let tm4 := dictSet tm3 "get_results" t4
          Except.ok
            { test_set := ts,
              fundamental_frequency_hz := some (fundamental_ghz * 1000000000),
              spurs := results_data,
              error := if results_data = [] then some "No spurs detected" else none,
              timings := tm4 }

/-- The body of `run_spur_search_measurement` inside its `try` (lines
226-263).  A list input is replaced by the driver attribute
`instr.fundamental_ghz` (line 232); a range (dict) input raises
`ValueError` at line 235 BEFORE `timings = {}` is executed at line 239,
so that error carries `none` for the still-unbound `timings` local. -/
def run_spur_search_core (cfg : SpurTestConfig) (ts : ℕ) (instr : SpurInstr) :
    Except (String × Option Timings) SpurRecord :=
  match cfg.fundamental_ghz with
  | FreqInput.range _ _ _ =>
    Except.error ("Range input should be processed in main loop", none)
  | FreqInput.scalar q =>
    match run_spur_search_ops q ts instr with
    | Except.ok rec => Except.ok rec
    | Except.error (e, tm) => Except.error (e, some tm)
  | FreqInput.list _ =>
    match run_spur_search_ops instr.fundamental_ghz ts instr with
    | Except.ok rec => Except.ok rec
    | Except.error (e, tm) => Except.error (e, some tm)

/-- `run_spur_search_measurement` with its `except` handler.  On success
the result dict is appended and `test_set + 1` returned; on an
exception raised after `timings` was bound, a placeholder with
`fundamental_frequency_hz = None`, empty spurs and the error string is
appended (lines 264-277) and `test_set + 1` returned.  But when the
body raised before line 239 (the range-input `ValueError`), the handler
itself crashes on the unbound local `timings` at line 275: nothing is
appended, nothing is returned, and the `UnboundLocalError` escapes to
the caller — the third component carries that escaped exception
(`none` when the function returned normally). -/
def run_spur_search_measurement (cfg : SpurTestConfig) (ts : ℕ) (instr : SpurInstr)
    (st : MainState) : MainState × ℕ × Option String :=
  match run_spur_search_core cfg ts instr with
  | Except.ok rec =>
    ({ st with results := st.results ++ [ResultEntry.spur rec] }, ts + 1, none)
  | Except.error (e, some tm) =>
    ({ st with results := st.results ++ [ResultEntry.spur
        { test_set := ts, fundamental_frequency_hz := none, spurs := [],
          error := some e, timings := tm }] }, ts + 1, none)
  | Except.error (_, none) =>
    (st, ts, some "UnboundLocalError: local variable timings referenced before assignment")

/-! ### `option_functions.get_Array_stats` (`SubThermalNoise.py`) -/

/-- `np.mean` on a list (the callers guarantee a non-empty list; `ℚ`
division by a zero length would give `0`). -/
def npMean (l : List ℚ) : ℚ := l.sum / l.length

/-- `np.min` on a non-empty list (a left fold, as numpy reduces). -/
def npMin : List ℚ → ℚ
  | [] => 0
  | x :: xs => xs.foldl min x

/-- `np.max` on a non-empty list. -/
def npMax : List ℚ → ℚ
  | [] => 0
  | x :: xs => xs.foldl max x

/-- The square of `np.std`: the mean of squared deviations from the mean
(population variance). -/
def npVarianceQ (l : List ℚ) : ℚ :=
  (l.map (fun x => (x - npMean l) ^ 2)).sum / l.length

/-- `option_functions.get_Array_stats` (`SubThermalNoise.py` lines
92-110): the five statistics the method computes and formats, as exact
values (`stdDevSq` is the square of the reported `StdDev`). -/
def get_Array_stats_vals (l : List ℚ) : ArrayStats :=
  { min := npMin l, max := npMax l, avg := npMean l,
    stdDevSq := npVarianceQ l, delta := npMax l - npMin l }

/-! ### `run_stn_measurement` (`main.py` lines 280-343) -/

/-- Oracle for the STN driver instance used by one test set:
`get_VSA_sweep_noise_mkr` is indexed by the iteration number; the
marker value is paired with the (possibly `None`) elapsed time that the
runner checks at lines 295-297. -/
structure STNInstr where
  VSA_Config : Except String (Unit × ℚ)
  get_VSA_sweep_noise_mkr : ℕ → Except String (ℚ × Option ℚ)

/-- Timing key for iteration `i` (0-based here; the source writes
`f"get_VSA_sweep_noise_mkr_{i + 1}"`). -/
def stn_iter_key (i : ℕ) : String :=
  "get_VSA_sweep_noise_mkr_" ++ toString (i + 1)

/-- The `for i in range(iterations)` loop of `run_stn_measurement` (lines
291-306): each iteration's inner `try` appends a marker entry and a
timing on success, and a `{"marker": None, "meas_time": 0.0}` entry with
a `0.0` timing when that iteration raises; a failed iteration does not
stop the remaining ones. -/
def stn_loop (instr : STNInstr) (i : ℕ) :
    ℕ → List STNMarker × Timings × ℚ → List STNMarker × Timings × ℚ
  | 0, acc => acc
  | n + 1, (meas, tm, total) =>
    match instr.get_VSA_sweep_noise_mkr i with
    | Except.ok (marker, dt?) =>
      let dt := dt?.getD 0
      stn_loop instr (i + 1) n
        (meas ++ [{ marker := some marker, meas_time := dt }],
         dictSet tm (stn_iter_key i) dt, total + dt)
    | Except.error _ =>
      stn_loop instr (i + 1) n
        (meas ++ [{ marker := none, meas_time := 0 }],
         dictSet tm (stn_iter_key i) 0, total)

/-- The body of `run_stn_measurement` inside its outer `try` (lines
284-328): configure, run the iterations, compute statistics when at
least two valid markers exist, and build the result dict (with an
`error` entry when no iteration succeeded). -/
def run_stn_core (instr : STNInstr) (freq : ℚ) (ts iterations : ℕ) :
    Except String STNRecord :=
  match instr.VSA_Config with
  | Except.error e => Except.error e
  | Except.ok (_, t0) =>
    let tm0 := dictSet [] "VSA_Config" t0
    let (meas, tm, total) := stn_loop instr 0 iterations ([], tm0, t0)
    let valid := meas.filterMap (fun m => m.marker)
    let stats := if 2 ≤ valid.length then some (get_Array_stats_vals valid) else none
    Except.ok
      { test_set := ts, center_frequency_hz := freq, iterations := iterations,
        markers := meas, stats := stats, timings := tm, total_test_time := total,
        error := if valid = [] then some "No successful measurements" else none }

/-- `run_stn_measurement` with its outer `except` handler (lines
329-343): on success the result dict is appended; on an exception a
placeholder with empty markers, no stats, empty timings and the error
string is appended. -/
def run_stn_measurement (instr : STNInstr) (freq : ℚ) (ts iterations : ℕ)
    (st : MainState) : MainState :=
  match run_stn_core instr freq ts iterations with
  | Except.ok rec => { st with results := st.results ++ [ResultEntry.stn rec] }
  | Except.error e =>
    { st with results := st.results ++ [ResultEntry.stn
        { test_set := ts, center_frequency_hz := freq, iterations := iterations,
          markers := [], stats := none, timings := [], total_test_time := 0,
          error := some e }] }


/-! ### Concrete fixtures for witnesses and counterexamples -/

/-- A well-formed NR5G test-set configuration with ACLR measurement off. -/
def sampleCfg : EvmTestConfig :=
  { center_frequency_ghz := 2, power_dbm := -10,
    waveform_file := some "5GNR_UL_10MHz_256QAM_30kHz_24RB_0RBO.wv",
    setup_file := some "5GNR_UL_10MHz_256QAM_30kHz_24RB_0RBO.dfl",
    measure_aclr := false }

/-- The configuration pair `sampleCfg` induces. -/
def sampleMeasConfig : MeasConfig :=
  { waveform_file := some "5GNR_UL_10MHz_256QAM_30kHz_24RB_0RBO.wv",
    setup_file := some "5GNR_UL_10MHz_256QAM_30kHz_24RB_0RBO.dfl" }

/-- Fresh module state: empty result list, both tracking globals `None`. -/
def emptyState : MainState :=
  { results := [], previous_config := none, previous_freq := none }

/-- Module state as left by a previous test set that ran `sampleCfg` at
2 GHz: the tracker already holds this configuration and frequency. -/
def repeatState : MainState :=
  { results := [], previous_config := some sampleMeasConfig,
    previous_freq := some 2000000000 }

/-- An NR5G driver oracle on which every instrument operation succeeds. -/
def okInstr : NR5GInstr :=
  { VSG_Config := Except.ok ((), 1),
    VSA_Config := fun _ => Except.ok ((), 2),
    VSx_freq := fun _ => Except.ok ((), 3),
    VSG_pwr := fun _ => Except.ok (),
    VSA_get_info := Except.ok ("cfg", 4),
    VSA_sweep := Except.ok ((), 5),
    VSA_get_EVM := Except.ok (PFloat.val (-28), 6),
    VSA_get_ACLR := Except.ok ("", 7) }

/-- An NR5G driver oracle whose very first operation raises. -/
def failInstr : NR5GInstr :=
  { okInstr with VSG_Config := Except.error "VSG connection failed" }

/-- The record `run_nr5g_measurement sampleCfg 3 okInstr repeatState`
appends: both setup steps skipped (their keys absent), `VSx_freq`
recorded as `0.0`. -/
def skipRec : MeasRecord :=
  { test_set := 3, center_frequency_hz := 2000000000, power_dbm := -10,
    evm := PFloat.val (-28), ch_pwr := none, acp_lower := none,
    acp_upper := none, alt_lower := none, alt_upper := none,
    timings := [("VSx_freq", 0), ("VSA_get_info", 4), ("VSA_sweep_evm", 5),
                ("VSA_get_EVM", 6), ("VSA_get_ACLR", 0)] }

/-- A SpurSearch test-set configuration with a scalar 2.44 GHz
fundamental. -/
def sampleSpurCfg : SpurTestConfig :=
  { fundamental_ghz := FreqInput.scalar (244/100), rbw_mhz := 1/50,
    spur_limit_dbm := -95, power_dbm := -70 }

/-- A SpurSearch test-set configuration whose fundamental is the raw
range dict, as the second default spur test of `main.py` carries
(`{"range": {"start_ghz": 2.4, "stop_ghz": 2.481, "step_mhz": 20}}`). -/
def rangeSpurCfg : SpurTestConfig :=
  { fundamental_ghz := FreqInput.range (24/10) (2481/1000) 20,
    rbw_mhz := 1/50, spur_limit_dbm := -122, power_dbm := -70 }

/-- A SpurSearch driver oracle on which every operation succeeds. -/
def okSpurInstr : SpurInstr :=
  { fundamental_ghz := 244/100,
    VSG_config := Except.ok ((), 1), VSA_config := Except.ok ((), 2),
    measure := Except.ok ((), 3), get_results := Except.ok ([], 4) }

/-- An STN driver oracle on which every operation succeeds. -/
def okSTNInstr : STNInstr :=
  { VSA_Config := Except.ok ((), 1),
    get_VSA_sweep_noise_mkr := fun _ => Except.ok (-90, some 1) }

/-- `get_results` responses for the guard-band example: two detected
peaks, at 2.441 GHz and 2.460 GHz, around the 2.44 GHz fundamental. -/
def guardBandResp : SpurQueryResponses :=
  { count_resp := Except.ok 2, scale_write := Except.ok (),
    freqs_resp := Except.ok [2441000000, 2460000000],
    powers_resp := Except.ok [-50, -60] }

/-- `get_results` responses with a count of 3 but only 2 frequency
values. -/
def mismatchResp : SpurQueryResponses :=
  { count_resp := Except.ok 3, scale_write := Except.ok (),
    freqs_resp := Except.ok [2100000000, 2200000000],
    powers_resp := Except.ok [-50, -60, -70] }

/-- An EVM-call oracle where every instrument call succeeds, the PEP
response is numeric, and the averaged EVM read-back is `"N/A"`. -/
def nanEvmOracle : EvmOracle :=
  { write_conf := Except.ok (), query_init1 := Except.ok "1",
    query_pep := Except.ok "7", write_rlev := Except.ok (),
    query_adj := Except.ok "1", query_init2 := Except.ok "1",
    query_evm := Except.ok "N/A" }

/-- An EVM-call oracle whose first instrument call raises. -/
def brokenEvmOracle : EvmOracle :=
  { nanEvmOracle with write_conf := Except.error "connection reset" }

/-- An NR5G driver oracle whose `VSA_get_EVM` outcome is the modelled
`VSA_get_EVM` method run against `nanEvmOracle`, timed at 6 seconds. -/
def nanEvmInstr : NR5GInstr :=
  { okInstr with
    VSA_get_EVM := Except.map (fun v => (v, 6)) (VSA_get_EVM nanEvmOracle) }

/-- The record `run_nr5g_measurement sampleCfg 1 nanEvmInstr emptyState`
appends: a full reconfiguration with the EVM field equal to NaN. -/
def nanEvmRec : MeasRecord :=
  { test_set := 1, center_frequency_hz := 2000000000, power_dbm := -10,
    evm := PFloat.nan, ch_pwr := none, acp_lower := none,
    acp_upper := none, alt_lower := none, alt_upper := none,
    timings := [("VSG_Config", 1), ("VSA_Config", 2), ("VSx_freq", 0),
                ("VSA_get_info", 4), ("VSA_sweep_evm", 5),
                ("VSA_get_EVM", 6), ("VSA_get_ACLR", 0)] }

/-! ### Helper lemmas -/

@[simp] theorem exceptBind_ok {ε α β : Type} (a : α) (f : α → Except ε β) :
    (Except.ok a >>= f : Except ε β) = f a := rfl

@[simp] theorem exceptBind_error {ε α β : Type} (e : ε) (f : α → Except ε β) :
    ((Except.error e : Except ε α) >>= f : Except ε β) = Except.error e := rfl

@[simp] theorem exceptPure_eq {ε α : Type} (a : α) : (pure a : Except ε α) = Except.ok a := rfl

theorem shouldRetune_self (f : ℚ) : shouldRetune (some f) f = false := by
  simp [shouldRetune]

theorem shouldReconfigure_none_true (c : MeasConfig) : shouldReconfigure none c = true := by
  simp [shouldReconfigure]

/-- Source path where the waveform configuration changed: `VSG_Config` and
`VSA_Config` run, the tracker is updated (which makes the subsequent
retune check compare the new frequency with itself and skip `VSx_freq`),
and the remaining steps succeed with ACLR measurement off. -/
theorem run_evm_ok_reconfig (cfg : EvmTestConfig) (ts : ℕ) (instr : NR5GInstr)
    (st : MainState) (info : String) (v : PFloat) (t1 t2 t3 t4 t5 : ℚ)
    (hpc : shouldReconfigure st.previous_config
      { waveform_file := cfg.waveform_file, setup_file := cfg.setup_file } = true)
    (h1 : instr.VSG_Config = Except.ok ((), t1))
    (h2 : instr.VSA_Config (cfg.center_frequency_ghz * 1000000000) = Except.ok ((), t2))
    (h3 : instr.VSG_pwr cfg.power_dbm = Except.ok ())
    (h4 : instr.VSA_get_info = Except.ok (info, t3))
    (h5 : instr.VSA_sweep = Except.ok ((), t4))
    (h6 : instr.VSA_get_EVM = Except.ok (v, t5))
    (ha : cfg.measure_aclr = false) :
    run_nr5g_measurement cfg ts instr st =
      { results := st.results ++ [ResultEntry.nr5g
          { test_set := ts, center_frequency_hz := cfg.center_frequency_ghz * 1000000000,
            power_dbm := cfg.power_dbm, evm := v,
            ch_pwr := none, acp_lower := none, acp_upper := none,
            alt_lower := none, alt_upper := none,
            timings := [("VSG_Config", t1), ("VSA_Config", t2), ("VSx_freq", 0),
                        ("VSA_get_info", t3), ("VSA_sweep_evm", t4),
                        ("VSA_get_EVM", t5), ("VSA_get_ACLR", 0)] }],
        previous_config := some { waveform_file := cfg.waveform_file, setup_file := cfg.setup_file },
        previous_freq := some (cfg.center_frequency_ghz * 1000000000) } := by
  simp [run_nr5g_measurement, runEvmFamily, run_evm_core, hpc, h1, h2, h3, h4, h5, h6, ha,
    shouldRetune_self, dictSet]

/-- Source path where the waveform configuration is unchanged and the
frequency is within tolerance: both setup steps and the retune are
skipped, `VSx_freq` is recorded as `0.0`, and the remaining steps succeed
with ACLR measurement off. -/
theorem run_evm_ok_skip (cfg : EvmTestConfig) (ts : ℕ) (instr : NR5GInstr)
    (st : MainState) (info : String) (v : PFloat) (p t3 t4 t5 : ℚ)
    (hpc : st.previous_config = some
      { waveform_file := cfg.waveform_file, setup_file := cfg.setup_file })
    (hpf : st.previous_freq = some p)
    (hfr : shouldRetune (some p) (cfg.center_frequency_ghz * 1000000000) = false)
    (h3 : instr.VSG_pwr cfg.power_dbm = Except.ok ())
    (h4 : instr.VSA_get_info = Except.ok (info, t3))
    (h5 : instr.VSA_sweep = Except.ok ((), t4))
    (h6 : instr.VSA_get_EVM = Except.ok (v, t5))
    (ha : cfg.measure_aclr = false) :
    run_nr5g_measurement cfg ts instr st =
      { results := st.results ++ [ResultEntry.nr5g
          { test_set := ts, center_frequency_hz := cfg.center_frequency_ghz * 1000000000,
            power_dbm := cfg.power_dbm, evm := v,
            ch_pwr := none, acp_lower := none, acp_upper := none,
            alt_lower := none, alt_upper := none,
            timings := [("VSx_freq", 0), ("VSA_get_info", t3), ("VSA_sweep_evm", t4),
                        ("VSA_get_EVM", t5), ("VSA_get_ACLR", 0)] }],
        previous_config := st.previous_config,
        previous_freq := st.previous_freq } := by
  simp [run_nr5g_measurement, runEvmFamily, run_evm_core, hpc, hpf, hfr,
    shouldReconfigure, h3, h4, h5, h6, ha, dictSet]

theorem stripLit_append (lit rest : List Char) : stripLit lit (lit ++ rest) = some rest := by
  induction lit with
  | nil => rfl
  | cons c cs ih => simp [stripLit, ih]

theorem takeDigits_append (ds : List Char) (c : Char) (cs : List Char)
    (hds : ∀ d ∈ ds, d.isDigit = true) (hc : c.isDigit = false) :
    takeDigits (ds ++ c :: cs) = (ds, c :: cs) := by
  induction ds with
  | nil => simp [takeDigits, hc]
  | cons d ds ih =>
    have hd : d.isDigit = true := hds d (by simp)
    have ih' := ih (fun x hx => hds x (by simp [hx]))
    simp [takeDigits, hd, ih']

theorem parseDigits_append (ds : List Char) (c : Char) (cs : List Char)
    (hne : ds ≠ []) (hds : ∀ d ∈ ds, d.isDigit = true) (hc : c.isDigit = false) :
    parseDigits (ds ++ c :: cs) = some (ds, c :: cs) := by
  simp [parseDigits, takeDigits_append ds c cs hds hc, hne]

theorem parseLinkDir_prefix_UL : ∀ rest : List Char,
    parseLinkDir ("UL".data ++ rest) = some ("UL", rest) := by
  intro rest; simp [parseLinkDir, stripLit]

theorem parseLinkDir_prefix_DL : ∀ rest : List Char,
    parseLinkDir ("DL".data ++ rest) = some ("DL", rest) := by
  intro rest; simp [parseLinkDir, stripLit]

theorem parseModTok_prefix_QPSK : ∀ rest : List Char,
    parseModTok ("QPSK".data ++ rest) = some ("QPSK", rest) := by
  intro rest; simp [parseModTok, stripLit]

theorem parseModTok_prefix_16QAM : ∀ rest : List Char,
    parseModTok ("16QAM".data ++ rest) = some ("16QAM", rest) := by
  intro rest; simp [parseModTok, stripLit]

theorem parseModTok_prefix_64QAM : ∀ rest : List Char,
    parseModTok ("64QAM".data ++ rest) = some ("64QAM", rest) := by
  intro rest; simp [parseModTok, stripLit]

theorem parseModTok_prefix_256QAM : ∀ rest : List Char,
    parseModTok ("256QAM".data ++ rest) = some ("256QAM", rest) := by
  intro rest; simp [parseModTok, stripLit]

theorem parseModTok_prefix_1024QAM : ∀ rest : List Char,
    parseModTok ("1024QAM".data ++ rest) = some ("1024QAM", rest) := by
  intro rest; simp [parseModTok, stripLit]

theorem parseLinkDir_cases (s : List Char) (ld : String) (r : List Char)
    (h : parseLinkDir s = some (ld, r)) : ld = "UL" ∨ ld = "DL" := by
  unfold parseLinkDir at h
  rcases e1 : stripLit "UL".toList s with _ | s1 <;> rw [e1] at h
  · rcases e2 : stripLit "DL".toList s with _ | s2 <;> rw [e2] at h
    · simp at h
    · simp at h; exact Or.inr h.1.symm
  · simp at h; exact Or.inl h.1.symm

theorem foldl_min_le_init (xs : List ℚ) (a : ℚ) : xs.foldl min a ≤ a := by
  induction xs generalizing a with
  | nil => exact le_refl a
  | cons x xs ih => exact le_trans (ih (min a x)) (min_le_left a x)

theorem foldl_min_le_mem (xs : List ℚ) (a y : ℚ) (hy : y ∈ xs) : xs.foldl min a ≤ y := by
  induction xs generalizing a with
  | nil => cases hy
  | cons x xs ih =>
    rcases List.mem_cons.mp hy with rfl | hy'
    · exact le_trans (foldl_min_le_init xs (min a y)) (min_le_right a y)
    · exact ih (min a x) hy'

theorem foldl_min_mem (xs : List ℚ) (a : ℚ) : xs.foldl min a = a ∨ xs.foldl min a ∈ xs := by
  induction xs generalizing a with
  | nil => exact Or.inl rfl
  | cons x xs ih =>
    rcases ih (min a x) with h | h
    · rcases min_cases a x with ⟨hm, _⟩ | ⟨hm, _⟩
      · left
        rw [hm] at h
        rw [List.foldl_cons, hm]
        exact h
      · right
        rw [hm] at h
        rw [List.foldl_cons, hm, h]
        exact List.mem_cons_self x xs
    · exact Or.inr (List.mem_cons_of_mem x h)

theorem le_foldl_max_init (xs : List ℚ) (a : ℚ) : a ≤ xs.foldl max a := by
  induction xs generalizing a with
  | nil => exact le_refl a
  | cons x xs ih => exact le_trans (le_max_left a x) (ih (max a x))

theorem le_foldl_max_mem (xs : List ℚ) (a y : ℚ) (hy : y ∈ xs) : y ≤ xs.foldl max a := by
  induction xs generalizing a with
  | nil => cases hy
  | cons x xs ih =>
    rcases List.mem_cons.mp hy with rfl | hy'
    · exact le_trans (le_max_right a y) (le_foldl_max_init xs (max a y))
    · exact ih (max a x) hy'

theorem foldl_max_mem (xs : List ℚ) (a : ℚ) : xs.foldl max a = a ∨ xs.foldl max a ∈ xs := by
  induction xs generalizing a with
  | nil => exact Or.inl rfl
  | cons x xs ih =>
    rcases ih (max a x) with h | h
    · rcases max_cases a x with ⟨hm, _⟩ | ⟨hm, _⟩
      · left
        rw [hm] at h
        rw [List.foldl_cons, hm]
        exact h
      · right
        rw [hm] at h
        rw [List.foldl_cons, hm, h]
        exact List.mem_cons_self x xs
    · exact Or.inr (List.mem_cons_of_mem x h)

/-- Exactly which outcomes the `VSA_get_EVM` body can end in: if it
returns without raising, every instrument call succeeded, the PEP
response parsed, and the result is either the parsed EVM value or NaN
for a non-numeric EVM string. -/
theorem VSA_get_EVM_body_ok_shape (o : EvmOracle) (v : PFloat)
    (h : VSA_get_EVM_body o = Except.ok v) :
    o.write_conf = Except.ok () ∧
    (∃ r1, o.query_init1 = Except.ok r1) ∧
    (∃ ps pv, o.query_pep = Except.ok ps ∧ parsePyFloat ps = some pv) ∧
    o.write_rlev = Except.ok () ∧
    (∃ r2, o.query_adj = Except.ok r2) ∧
    (∃ r3, o.query_init2 = Except.ok r3) ∧
    (∃ es, o.query_evm = Except.ok es ∧
      ((∃ q, parsePyFloat es = some q ∧ v = PFloat.val q) ∨
       (parsePyFloat es = none ∧ v = PFloat.nan))) := by
  unfold VSA_get_EVM_body at h
  rcases h1 : o.write_conf with e | u <;> simp [h1] at h
  rcases h2 : o.query_init1 with e | r1 <;> simp [h2] at h
  rcases h3 : o.query_pep with e | ps <;> simp [h3] at h
  rcases hps : parsePyFloat ps with _ | pv <;> simp [hps] at h
  rcases h4 : o.write_rlev with e | u2 <;> simp [h4] at h
  rcases h5 : o.query_adj with e | r2 <;> simp [h5] at h
  rcases h6 : o.query_init2 with e | r3 <;> simp [h6] at h
  rcases h7 : o.query_evm with e | es <;> simp [h7] at h
  refine ⟨rfl, ⟨r1, rfl⟩, ⟨ps, pv, rfl, hps⟩, rfl, ⟨r2, rfl⟩, ⟨r3, rfl⟩, ⟨es, rfl, ?_⟩⟩
  rcases hes : parsePyFloat es with _ | q <;> rw [hes] at h
  · simp at h
    exact Or.inr ⟨rfl, h.symm⟩
  · simp at h
    exact Or.inl ⟨q, rfl, h.symm⟩

/-! ### Claim theorems -/

/-- Claim C6: reconfiguration is demanded on the very first test set
(previous configuration undefined), on every test set whose waveform or
setup file differs from the previous one, and is skipped for an
identical configuration on a subsequent call
(`shouldReconfigure cfg cfg` is false). -/
theorem shouldReconfigure_spec :
    ∀ c c' : MeasConfig,
      shouldReconfigure none c = true ∧
      shouldReconfigure (some c) c = false ∧
      ((c'.waveform_file ≠ c.waveform_file ∨ c'.setup_file ≠ c.setup_file) →
        shouldReconfigure (some c') c = true) := by
  intro c c'
  refine ⟨shouldReconfigure_none_true c, by simp [shouldReconfigure], ?_⟩
  intro h
  simp only [shouldReconfigure, ne_eq, decide_eq_true_eq]
  intro hEq
  rcases h with h | h
  · exact h (by rw [Option.some.inj hEq])
  · exact h (by rw [Option.some.inj hEq])

/-- Witness for C6 at a concrete pair of configurations differing in the
waveform file. -/
theorem shouldReconfigure_spec_witness :
    ({ waveform_file := some "a.wv", setup_file := some "a.dfl" } : MeasConfig).waveform_file ≠
      ({ waveform_file := some "b.wv", setup_file := some "a.dfl" } : MeasConfig).waveform_file ∧
    shouldReconfigure
      (some { waveform_file := some "a.wv", setup_file := some "a.dfl" })
      { waveform_file := some "b.wv", setup_file := some "a.dfl" } = true :=
  ⟨by simp, (shouldReconfigure_spec
      { waveform_file := some "b.wv", setup_file := some "a.dfl" }
      { waveform_file := some "a.wv", setup_file := some "a.dfl" }).2.2
    (Or.inl (by simp))⟩

/-- Claim C7: the retune decision uses a fixed absolute tolerance of
`1e-3` Hz — `shouldRetune f f` is false, `shouldRetune f (f + 2e-3)` is
true, `shouldRetune f (f + 5e-4)` is false, and in general retuning
happens exactly when the absolute frequency difference exceeds `1e-3`. -/
theorem shouldRetune_spec :
    ∀ f g : ℚ,
      shouldRetune (some f) f = false ∧
      shouldRetune (some f) (f + 2/1000) = true ∧
      shouldRetune (some f) (f + 5/10000) = false ∧
      (shouldRetune (some f) g = true ↔ |f - g| > 1/1000) := by
  intro f g
  refine ⟨shouldRetune_self f, ?_, ?_, ?_⟩
  · simp only [shouldRetune, decide_eq_true_eq]
    rw [show f - (f + 2/1000) = -(2/1000) by ring, abs_neg, abs_of_pos (by norm_num)]
    norm_num
  · simp only [shouldRetune, decide_eq_false_iff_not]
    rw [show f - (f + 5/10000) = -(5/10000) by ring, abs_neg, abs_of_pos (by norm_num)]
    norm_num
  · simp [shouldRetune]

/-- Witness for C7 at `f = 0`, `g = 1`. -/
theorem shouldRetune_spec_witness :
    shouldRetune (some (0 : ℚ)) 0 = false ∧
    shouldRetune (some (0 : ℚ)) (0 + 2/1000) = true ∧
    shouldRetune (some (0 : ℚ)) (0 + 5/10000) = false ∧
    (shouldRetune (some (0 : ℚ)) 1 = true ↔ |(0 : ℚ) - 1| > 1/1000) :=
  shouldRetune_spec 0 1

/-- Claim C4: `get_results` never returns a spur within the 10 MHz guard
band of the fundamental, and — given a matching count and list lengths —
a detected peak appears in the returned list exactly when its distance
from the fundamental exceeds 10 MHz. -/
theorem get_results_guard_band_spec :
    (∀ (g : ℚ) (r : SpurQueryResponses) (f p : ℚ),
      (f, p) ∈ get_results g r → |f - g * 1000000000| > 10000000) ∧
    (∀ (g : ℚ) (r : SpurQueryResponses) (n : ℤ) (fs ps : List ℚ),
      r.count_resp = Except.ok n → 0 < n → r.scale_write = Except.ok () →
      r.freqs_resp = Except.ok fs → r.powers_resp = Except.ok ps →
      (fs.length : ℤ) = n → (ps.length : ℤ) = n →
      ∀ f p : ℚ, ((f, p) ∈ get_results g r ↔
        ((f, p) ∈ fs.zip ps ∧ |f - g * 1000000000| > 10000000))) := by
  constructor
  · intro g r f p h
    unfold get_results get_results_body at h
    rcases hc : r.count_resp with e | n <;> simp [hc] at h
    by_cases hn : 0 < n
    · rw [if_pos hn] at h
      rcases hw : r.scale_write with e | u <;> simp [hw] at h
      rcases hf : r.freqs_resp with e | fs <;> simp [hf] at h
      rcases hp : r.powers_resp with e | ps <;> simp [hp] at h
      by_cases hm : (fs.length : ℤ) ≠ n ∨ (ps.length : ℤ) ≠ n
      · rw [if_pos hm] at h; simp at h
      · rw [if_neg hm] at h
        simp [List.mem_filter] at h
        exact h.2
    · rw [if_neg hn] at h; simp at h
  · intro g r n fs ps hc hn hw hf hp hlf hlp f p
    simp [get_results, get_results_body, hc, hn, hw, hf, hp, hlf, hlp, List.mem_filter]

/-- Witness for C4: with a 2.44 GHz fundamental, the peak at 2.460 GHz
is retained and the peak at 2.441 GHz is excluded. -/
theorem get_results_guard_band_spec_witness :
    ((2460000000 : ℚ), (-60 : ℚ)) ∈ get_results (244/100) guardBandResp ∧
    ((2441000000 : ℚ), (-50 : ℚ)) ∉ get_results (244/100) guardBandResp := by
  have h := get_results_guard_band_spec.2 (244/100) guardBandResp 2
    [2441000000, 2460000000] [-50, -60] rfl (by norm_num) rfl rfl rfl
    (by norm_num) (by norm_num)
  constructor
  · exact (h 2460000000 (-60)).mpr ⟨by simp, by norm_num⟩
  · intro hmem
    have h2 := (h 2441000000 (-50)).mp hmem
    have habs := h2.2
    norm_num at habs

/-- Claim C5: when the reported peak count disagrees with the length of
the frequency list or the power list, `get_results` returns an empty
list without raising (the body completes normally with `[]`). -/
theorem get_results_count_mismatch_spec :
    ∀ (g : ℚ) (r : SpurQueryResponses) (n : ℤ) (fs ps : List ℚ),
      r.count_resp = Except.ok n → 0 < n → r.scale_write = Except.ok () →
      r.freqs_resp = Except.ok fs → r.powers_resp = Except.ok ps →
      ((fs.length : ℤ) ≠ n ∨ (ps.length : ℤ) ≠ n) →
      get_results_body g r = Except.ok [] ∧ get_results g r = [] := by
  intro g r n fs ps hc hn hw hf hp hm
  constructor <;> simp [get_results, get_results_body, hc, hn, hw, hf, hp, hm]

/-- Witness for C5: a count of 3 with only 2 frequency values yields an
empty result without an exception. -/
theorem get_results_count_mismatch_spec_witness :
    get_results_body (244/100) mismatchResp = Except.ok [] ∧
    get_results (244/100) mismatchResp = [] :=
  get_results_count_mismatch_spec (244/100) mismatchResp 3
    [2100000000, 2200000000] [-50, -60, -70] rfl (by norm_num) rfl rfl rfl
    (Or.inl (by norm_num))

/-- Claim C10: `VSA_get_EVM` never propagates an exception — it always
returns a value; in particular it returns NaN whenever its body raises,
whenever the PEP response is non-numeric (the inner handler re-raises
and the outer handler catches), and whenever any single instrument call
raises. -/
theorem VSA_get_EVM_never_raises :
    ∀ o : EvmOracle,
      (∃ v, VSA_get_EVM o = Except.ok v) ∧
      (∀ e, VSA_get_EVM_body o = Except.error e →
        VSA_get_EVM o = Except.ok PFloat.nan) ∧
      (∀ s, o.query_pep = Except.ok s → parsePyFloat s = none →
        VSA_get_EVM o = Except.ok PFloat.nan) ∧
      (∀ e, (o.write_conf = Except.error e ∨ o.query_init1 = Except.error e ∨
             o.query_pep = Except.error e ∨ o.write_rlev = Except.error e ∨
             o.query_adj = Except.error e ∨ o.query_init2 = Except.error e ∨
             o.query_evm = Except.error e) →
        VSA_get_EVM o = Except.ok PFloat.nan) := by
  intro o
  refine ⟨?_, ?_, ?_, ?_⟩
  · unfold VSA_get_EVM
    rcases h : VSA_get_EVM_body o with e | v
    · exact ⟨PFloat.nan, rfl⟩
    · exact ⟨v, rfl⟩
  · intro e h
    simp [VSA_get_EVM, h]
  · intro s hs hparse
    unfold VSA_get_EVM
    rcases h : VSA_get_EVM_body o with e | v
    · rfl
    · exfalso
      obtain ⟨_, _, ⟨ps, pv, hps, hpv⟩, _⟩ := VSA_get_EVM_body_ok_shape o v h
      rw [hs] at hps
      obtain rfl := Except.ok.inj hps
      rw [hparse] at hpv
      cases hpv
  · intro e hd
    unfold VSA_get_EVM
    rcases h : VSA_get_EVM_body o with e' | v
    · rfl
    · exfalso
      obtain ⟨hw, ⟨r1, h1⟩, ⟨ps, pv, hps, _⟩, hrl, ⟨r2, h2⟩, ⟨r3, h3⟩, ⟨es, h7, _⟩⟩ :=
        VSA_get_EVM_body_ok_shape o v h
      rcases hd with hx | hx | hx | hx | hx | hx | hx <;> simp_all

/-- Witness for C10 at a concrete oracle whose first instrument call
raises: the method still returns NaN rather than an error. -/
theorem VSA_get_EVM_never_raises_witness :
    brokenEvmOracle.write_conf = Except.error "connection reset" ∧
    VSA_get_EVM brokenEvmOracle = Except.ok PFloat.nan :=
  ⟨rfl, (VSA_get_EVM_never_raises brokenEvmOracle).2.2.2 "connection reset" (Or.inl rfl)⟩

/-- Claim C9: the statistics helper is a pure function reporting, for
every non-empty sample list, the minimum, the maximum, the arithmetic
mean, and a delta equal to maximum minus minimum; on `[-90, -92]` it
reports min `-92`, max `-90`, avg `-91`, delta `2` (and squared standard
deviation `1`). -/
theorem get_Array_stats_spec :
    (∀ (x : ℚ) (xs : List ℚ),
      (get_Array_stats_vals (x :: xs)).min ∈ (x :: xs) ∧
      (∀ y ∈ x :: xs, (get_Array_stats_vals (x :: xs)).min ≤ y) ∧
      (get_Array_stats_vals (x :: xs)).max ∈ (x :: xs) ∧
      (∀ y ∈ x :: xs, y ≤ (get_Array_stats_vals (x :: xs)).max) ∧
      (get_Array_stats_vals (x :: xs)).avg * (x :: xs).length = (x :: xs).sum ∧
      (get_Array_stats_vals (x :: xs)).delta =
        (get_Array_stats_vals (x :: xs)).max - (get_Array_stats_vals (x :: xs)).min) ∧
    get_Array_stats_vals [-90, -92] =
      { min := -92, max := -90, avg := -91, stdDevSq := 1, delta := 2 } := by
  constructor
  · intro x xs
    refine ⟨?_, ?_, ?_, ?_, ?_, ?_⟩
    · rcases foldl_min_mem xs x with h | h
      · simp [get_Array_stats_vals, npMin, h]
      · simp [get_Array_stats_vals, npMin, List.mem_cons_of_mem x h]
    · intro y hy
      rcases List.mem_cons.mp hy with rfl | hy'
      · simpa [get_Array_stats_vals, npMin] using foldl_min_le_init xs y
      · simpa [get_Array_stats_vals, npMin] using foldl_min_le_mem xs x y hy'
    · rcases foldl_max_mem xs x with h | h
      · simp [get_Array_stats_vals, npMax, h]
      · simp [get_Array_stats_vals, npMax, List.mem_cons_of_mem x h]
    · intro y hy
      rcases List.mem_cons.mp hy with rfl | hy'
      · simpa [get_Array_stats_vals, npMax] using le_foldl_max_init xs y
      · simpa [get_Array_stats_vals, npMax] using le_foldl_max_mem xs x y hy'
    · have hne : ((x :: xs).length : ℚ) ≠ 0 :=
        ne_of_gt (by exact_mod_cast Nat.succ_pos xs.length)
      simp only [get_Array_stats_vals, npMean]
      field_simp
    · rfl
  · simp [get_Array_stats_vals, npMean, npMin, npMax, npVarianceQ, ArrayStats.mk.injEq]
    norm_num

/-- Witness for C9 at the sample list `[-90, -92]`. -/
theorem get_Array_stats_spec_witness :
    (get_Array_stats_vals [(-90 : ℚ), -92]).min ∈ [(-90 : ℚ), -92] ∧
    (get_Array_stats_vals [(-90 : ℚ), -92]).min ≤ -90 :=
  ⟨(get_Array_stats_spec.1 (-90) [-92]).1,
   (get_Array_stats_spec.1 (-90) [-92]).2.1 (-90) (by simp)⟩

set_option maxHeartbeats 1000000 in
/-- Claim C3: for every waveform filename matching the naming grammar,
parsing recovers exactly the encoded signal type, link direction,
bandwidth, modulation, subcarrier spacing, resource blocks and
resource-block offset, and the derived duplexing is FDD exactly when the
link direction is UL; parsing is a pure function of the filename. -/
theorem parse_waveform_name_spec :
    (∀ (ld md : String) (bw scs rb rbo : List Char),
      (ld = "UL" ∨ ld = "DL") →
      (md = "QPSK" ∨ md = "16QAM" ∨ md = "64QAM" ∨ md = "256QAM" ∨ md = "1024QAM") →
      bw ≠ [] → (∀ d ∈ bw, d.isDigit = true) →
      scs ≠ [] → (∀ d ∈ scs, d.isDigit = true) →
      rb ≠ [] → (∀ d ∈ rb, d.isDigit = true) →
      rbo ≠ [] → (∀ d ∈ rbo, d.isDigit = true) →
      extract_waveform_params (mkWaveformName ld md bw scs rb rbo) =
        some { signal_type := "5GNR", link_direction := ld,
               bandwidth_mhz := digitsVal bw, modulation := md,
               subcarrier_spacing_khz := digitsVal scs,
               resource_blocks := digitsVal rb,
               resource_block_offset := digitsVal rbo,
               duplexing := if ld = "UL" then "FDD" else "TDD" }) ∧
    (∀ (name : String) (p : WaveformParams),
      extract_waveform_params name = some p →
      (p.duplexing = "FDD" ↔ p.link_direction = "UL")) := by
  constructor
  · intro ld md bw scs rb rbo hld hmd hbw hbwd hscs hscsd hrb hrbd hrbo hrbod
    have hldp : ∀ rest : List Char, parseLinkDir (ld.data ++ rest) = some (ld, rest) := by
      rcases hld with h | h <;> subst h
      · exact parseLinkDir_prefix_UL
      · exact parseLinkDir_prefix_DL
    have hmdp : ∀ rest : List Char, parseModTok (md.data ++ rest) = some (md, rest) := by
      rcases hmd with h | h | h | h | h <;> subst h
      · exact parseModTok_prefix_QPSK
      · exact parseModTok_prefix_16QAM
      · exact parseModTok_prefix_64QAM
      · exact parseModTok_prefix_256QAM
      · exact parseModTok_prefix_1024QAM
    have hbwp : ∀ rest : List Char, parseDigits (bw ++ 'M' :: rest) = some (bw, 'M' :: rest) :=
      fun rest => parseDigits_append bw 'M' rest hbw hbwd (by decide)
    have hscsp : ∀ rest : List Char, parseDigits (scs ++ 'k' :: rest) = some (scs, 'k' :: rest) :=
      fun rest => parseDigits_append scs 'k' rest hscs hscsd (by decide)
    have hrbp : ∀ rest : List Char, parseDigits (rb ++ 'R' :: rest) = some (rb, 'R' :: rest) :=
      fun rest => parseDigits_append rb 'R' rest hrb hrbd (by decide)
    have hrbop : ∀ rest : List Char, parseDigits (rbo ++ 'R' :: rest) = some (rbo, 'R' :: rest) :=
      fun rest => parseDigits_append rbo 'R' rest hrbo hrbod (by decide)
    simp [extract_waveform_params, mkWaveformName, stripLit,
      hldp, hmdp, hbwp, hscsp, hrbp, hrbop]
  · intro name p h
    unfold extract_waveform_params at h
    simp only [Option.bind_eq_bind, Option.bind_eq_some] at h
    obtain ⟨s1, h1, ⟨ld, s2⟩, h2, s3, h3, ⟨bwd, s4⟩, h4, s5, h5, ⟨md, s6⟩, h6,
      s7, h7, ⟨scsd, s8⟩, h8, s9, h9, ⟨rbd, s10⟩, h10, s11, h11,
      ⟨rbod, s12⟩, h12, s13, h13, hfin⟩ := h
    have hld := parseLinkDir_cases s1 ld s2 h2
    by_cases he : s13 = []
    · rw [if_pos he] at hfin
      obtain rfl : _ = p := Option.some.inj hfin
      rcases hld with rfl | rfl <;> simp
    · rw [if_neg he] at hfin
      exact absurd hfin (by simp)

/-- Witness for C3 at the concrete filename
`5GNR_UL_10MHz_256QAM_30kHz_24RB_0RBO.wv`. -/
theorem parse_waveform_name_spec_witness :
    mkWaveformName "UL" "256QAM" ['1', '0'] ['3', '0'] ['2', '4'] ['0'] =
      "5GNR_UL_10MHz_256QAM_30kHz_24RB_0RBO.wv" ∧
    extract_waveform_params (mkWaveformName "UL" "256QAM" ['1', '0'] ['3', '0'] ['2', '4'] ['0']) =
      some { signal_type := "5GNR", link_direction := "UL", bandwidth_mhz := 10,
             modulation := "256QAM", subcarrier_spacing_khz := 30,
             resource_blocks := 24, resource_block_offset := 0,
             duplexing := "FDD" } := by
  have h := parse_waveform_name_spec.1 "UL" "256QAM" ['1', '0'] ['3', '0'] ['2', '4'] ['0']
    (Or.inl rfl) (Or.inr (Or.inr (Or.inr (Or.inl rfl))))
    (by decide) (by decide) (by decide) (by decide)
    (by decide) (by decide) (by decide) (by decide)
  refine ⟨by decide, ?_⟩
  simpa [show digitsVal ['1', '0'] = 10 from by decide,
    show digitsVal ['3', '0'] = 30 from by decide,
    show digitsVal ['2', '4'] = 24 from by decide,
    show digitsVal ['0'] = 0 from by decide] using h

/-- Claim C1 (amended): an STN test set always appends exactly one
record — a placeholder carrying the error string when its body raises.
A SpurSearch test set with a scalar or list fundamental likewise always
appends exactly one record and returns normally; but when the raw range
dict reaches the runner (as the main loop passes it at line 497), the
body raises before the `timings` local is bound, the `except` handler
itself crashes on the unbound local, and zero records are appended,
the exception escaping to the caller.  An NR5G or LTE test set appends
exactly one record when its body completes, but when its body raises
the handler only logs and appends nothing, so a failed NR5G/LTE test
set also yields zero result entries.  No test set ever appends more
than one record. -/
theorem result_append_policy :
    (∀ (cfg : SpurTestConfig) (ts : ℕ) (instr : SpurInstr) (st : MainState),
      (∀ s0 s1 s2 : ℚ, cfg.fundamental_ghz ≠ FreqInput.range s0 s1 s2) →
      ((run_spur_search_measurement cfg ts instr st).1).results.length =
        st.results.length + 1 ∧
      (run_spur_search_measurement cfg ts instr st).2.2 = none) ∧
    (∀ (cfg : SpurTestConfig) (ts : ℕ) (instr : SpurInstr) (st : MainState)
      (s0 s1 s2 : ℚ), cfg.fundamental_ghz = FreqInput.range s0 s1 s2 →
      run_spur_search_measurement cfg ts instr st =
        (st, ts, some "UnboundLocalError: local variable timings referenced before assignment")) ∧
    (∀ (instr : STNInstr) (freq : ℚ) (ts iterations : ℕ) (st : MainState),
      (run_stn_measurement instr freq ts iterations st).results.length =
        st.results.length + 1) ∧
    (∀ (cfg : EvmTestConfig) (ts : ℕ) (instr : NR5GInstr) (st : MainState)
      (tr : TrackerState) (r : MeasRecord),
      run_evm_core cfg ts instr ⟨st.previous_config, st.previous_freq⟩ =
        (tr, Except.ok r) →
      (run_nr5g_measurement cfg ts instr st).results = st.results ++ [ResultEntry.nr5g r] ∧
      (run_lte_measurement cfg ts instr st).results = st.results ++ [ResultEntry.lte r]) ∧
    (∀ (cfg : EvmTestConfig) (ts : ℕ) (instr : NR5GInstr) (st : MainState)
      (tr : TrackerState) (e : String),
      run_evm_core cfg ts instr ⟨st.previous_config, st.previous_freq⟩ =
        (tr, Except.error e) →
      (run_nr5g_measurement cfg ts instr st).results = st.results ∧
      (run_lte_measurement cfg ts instr st).results = st.results) := by
  refine ⟨?_, ?_, ?_, ?_, ?_⟩
  · intro cfg ts instr st hnr
    rcases hcf : cfg.fundamental_ghz with q | qs | ⟨s0, s1, s2⟩
    · rcases hops : run_spur_search_ops q ts instr with ⟨e, tm⟩ | rec <;>
        simp [run_spur_search_measurement, run_spur_search_core, hcf, hops]
    · rcases hops : run_spur_search_ops instr.fundamental_ghz ts instr with ⟨e, tm⟩ | rec <;>
        simp [run_spur_search_measurement, run_spur_search_core, hcf, hops]
    · exact absurd hcf (hnr s0 s1 s2)
  · intro cfg ts instr st s0 s1 s2 hcf
    simp [run_spur_search_measurement, run_spur_search_core, hcf]
  · intro instr freq ts iterations st
    rcases h : run_stn_core instr freq ts iterations with rec | e <;>
      simp [run_stn_measurement, h]
  · intro cfg ts instr st tr r h
    constructor <;> simp [run_nr5g_measurement, run_lte_measurement, runEvmFamily, h]
  · intro cfg ts instr st tr e h
    constructor <;> simp [run_nr5g_measurement, run_lte_measurement, runEvmFamily, h]

/-- Counterexample for C1 as stated: with a fresh state and a driver
whose first instrument call raises, the NR5G runner catches the
exception and appends nothing — the test set produces zero result
entries, not an error-flagged placeholder. -/
theorem nr5g_failed_test_set_appends_no_record :
    (run_evm_core sampleCfg 1 failInstr ⟨none, none⟩).2 =
      Except.error "VSG connection failed" ∧
    (run_nr5g_measurement sampleCfg 1 failInstr emptyState).results = [] ∧
    (run_nr5g_measurement sampleCfg 1 failInstr emptyState).results.length ≠
      emptyState.results.length + 1 := by
  refine ⟨?_, ?_, ?_⟩ <;>
    simp [run_nr5g_measurement, runEvmFamily, run_evm_core, emptyState,
      sampleCfg, failInstr, okInstr, shouldReconfigure]

/-- Witness for C1 at concrete inputs: an all-success scalar SpurSearch
set and an all-success STN set each append exactly one record; a
range-input SpurSearch set appends nothing and lets the exception
escape; an all-success NR5G set appends exactly its record. -/
theorem result_append_policy_witness :
    ((run_spur_search_measurement sampleSpurCfg 1 okSpurInstr emptyState).1).results.length = 1 ∧
    run_spur_search_measurement rangeSpurCfg 1 okSpurInstr emptyState =
      (emptyState, 1,
        some "UnboundLocalError: local variable timings referenced before assignment") ∧
    (run_stn_measurement okSTNInstr 2000000000 1 2 emptyState).results.length = 1 ∧
    (run_nr5g_measurement sampleCfg 1 okInstr emptyState).results =
      [ResultEntry.nr5g
        { test_set := 1, center_frequency_hz := 2000000000, power_dbm := -10,
          evm := PFloat.val (-28), ch_pwr := none, acp_lower := none,
          acp_upper := none, alt_lower := none, alt_upper := none,
          timings := [("VSG_Config", 1), ("VSA_Config", 2), ("VSx_freq", 0),
                      ("VSA_get_info", 4), ("VSA_sweep_evm", 5),
                      ("VSA_get_EVM", 6), ("VSA_get_ACLR", 0)] }] := by
  refine ⟨?_, ?_, ?_, ?_⟩
  · simpa [emptyState] using
      (result_append_policy.1 sampleSpurCfg 1 okSpurInstr emptyState
        (by intro s0 s1 s2; simp [sampleSpurCfg])).1
  · exact result_append_policy.2.1 rangeSpurCfg 1 okSpurInstr emptyState
      (24/10) (2481/1000) 20 rfl
  · simpa [emptyState] using
      result_append_policy.2.2.1 okSTNInstr 2000000000 1 2 emptyState
  · have hcore : run_evm_core sampleCfg 1 okInstr ⟨none, none⟩ =
        (⟨some sampleMeasConfig, some 2000000000⟩, Except.ok
          { test_set := 1, center_frequency_hz := 2000000000, power_dbm := -10,
            evm := PFloat.val (-28), ch_pwr := none, acp_lower := none,
            acp_upper := none, alt_lower := none, alt_upper := none,
            timings := [("VSG_Config", 1), ("VSA_Config", 2), ("VSx_freq", 0),
                        ("VSA_get_info", 4), ("VSA_sweep_evm", 5),
                        ("VSA_get_EVM", 6), ("VSA_get_ACLR", 0)] }) := by
      norm_num [run_evm_core, sampleCfg, sampleMeasConfig, okInstr,
        shouldReconfigure_none_true, shouldRetune_self, dictSet]
    have h := (result_append_policy.2.2.2.1 sampleCfg 1 okInstr emptyState
      ⟨some sampleMeasConfig, some 2000000000⟩ _ (by simpa [emptyState] using hcore)).1
    simpa [emptyState] using h

/-- Claim C2 (amended): when the configuration is unchanged and the
frequency difference is within tolerance, the skipped retune still
records `VSx_freq = 0.0` in the timing map and `measureEVM`
(`VSA_get_EVM`) is still invoked with its elapsed time recorded — but
the skipped generator/analyzer reconfiguration steps are omitted from
the timing map entirely (`VSG_Config` and `VSA_Config` keys absent)
rather than recorded as zero. -/
theorem skip_timing_policy (cfg : EvmTestConfig) (ts : ℕ) (instr : NR5GInstr)
    (st : MainState) (info : String) (v : PFloat) (p t3 t4 t5 : ℚ)
    (hpc : st.previous_config = some
      { waveform_file := cfg.waveform_file, setup_file := cfg.setup_file })
    (hpf : st.previous_freq = some p)
    (hfr : shouldRetune (some p) (cfg.center_frequency_ghz * 1000000000) = false)
    (h3 : instr.VSG_pwr cfg.power_dbm = Except.ok ())
    (h4 : instr.VSA_get_info = Except.ok (info, t3))
    (h5 : instr.VSA_sweep = Except.ok ((), t4))
    (h6 : instr.VSA_get_EVM = Except.ok (v, t5))
    (ha : cfg.measure_aclr = false) :
    run_nr5g_measurement cfg ts instr st =
      { results := st.results ++ [ResultEntry.nr5g
          { test_set := ts, center_frequency_hz := cfg.center_frequency_ghz * 1000000000,
            power_dbm := cfg.power_dbm, evm := v,
            ch_pwr := none, acp_lower := none, acp_upper := none,
            alt_lower := none, alt_upper := none,
            timings := [("VSx_freq", 0), ("VSA_get_info", t3), ("VSA_sweep_evm", t4),
                        ("VSA_get_EVM", t5), ("VSA_get_ACLR", 0)] }],
        previous_config := st.previous_config,
        previous_freq := st.previous_freq } ∧
    ("VSx_freq", (0 : ℚ)) ∈
      [("VSx_freq", (0 : ℚ)), ("VSA_get_info", t3), ("VSA_sweep_evm", t4),
       ("VSA_get_EVM", t5), ("VSA_get_ACLR", 0)] ∧
    ("VSA_get_EVM", t5) ∈
      [("VSx_freq", (0 : ℚ)), ("VSA_get_info", t3), ("VSA_sweep_evm", t4),
       ("VSA_get_EVM", t5), ("VSA_get_ACLR", 0)] ∧
    "VSG_Config" ∉
      ([("VSx_freq", (0 : ℚ)), ("VSA_get_info", t3), ("VSA_sweep_evm", t4),
        ("VSA_get_EVM", t5), ("VSA_get_ACLR", 0)]).map Prod.fst ∧
    "VSA_Config" ∉
      ([("VSx_freq", (0 : ℚ)), ("VSA_get_info", t3), ("VSA_sweep_evm", t4),
        ("VSA_get_EVM", t5), ("VSA_get_ACLR", 0)]).map Prod.fst := by
  refine ⟨run_evm_ok_skip cfg ts instr st info v p t3 t4 t5 hpc hpf hfr h3 h4 h5 h6 ha,
    by simp, by simp, by simp, by simp⟩

/-- Counterexample for C2 as stated: a second identical test set skips
the generator/analyzer reconfiguration, and the appended record's
timing map does not contain the `VSG_Config` / `VSA_Config` keys at all
(the claim says every skipped step keeps its key with `0.0`). -/
theorem skipped_reconfig_omits_timing_keys :
    (run_nr5g_measurement sampleCfg 3 okInstr repeatState).results =
      [ResultEntry.nr5g skipRec] ∧
    "VSG_Config" ∉ skipRec.timings.map Prod.fst ∧
    "VSA_Config" ∉ skipRec.timings.map Prod.fst := by
  refine ⟨?_, by simp [skipRec], by simp [skipRec]⟩
  have h := run_evm_ok_skip sampleCfg 3 okInstr repeatState "cfg" (PFloat.val (-28))
    2000000000 4 5 6 (by simp [repeatState, sampleMeasConfig, sampleCfg]) rfl
    (by norm_num [shouldRetune, sampleCfg]) rfl rfl rfl rfl rfl
  rw [h]
  norm_num [repeatState, skipRec, sampleCfg]

/-- Witness for C2 at the same concrete second-identical-test-set run. -/
theorem skip_timing_policy_witness :
    (run_nr5g_measurement sampleCfg 3 okInstr repeatState).results =
      [ResultEntry.nr5g skipRec] ∧
    ("VSx_freq", (0 : ℚ)) ∈ skipRec.timings ∧
    ("VSA_get_EVM", (6 : ℚ)) ∈ skipRec.timings := by
  have h := skip_timing_policy sampleCfg 3 okInstr repeatState "cfg" (PFloat.val (-28))
    2000000000 4 5 6 (by simp [repeatState, sampleMeasConfig, sampleCfg]) rfl
    (by norm_num [shouldRetune, sampleCfg]) rfl rfl rfl rfl rfl
  refine ⟨?_, by simp [skipRec], by simp [skipRec]⟩
  rw [h.1]
  norm_num [repeatState, skipRec, sampleCfg]

/-- Claim C8: when the averaged EVM read-back string is non-numeric,
`VSA_get_EVM` returns NaN instead of raising, and the test-set record is
still appended with its `evm` field equal to NaN, so a single failed EVM
measurement does not abort the test set. -/
theorem measure_evm_nan_still_appended (o : EvmOracle) (instr : NR5GInstr)
    (cfg : EvmTestConfig) (ts : ℕ) (st : MainState)
    (r1 ps r2 r3 es info : String) (pv : ℚ) (t1 t2 t3 t4 t5 : ℚ)
    (h1 : o.write_conf = Except.ok ()) (h2 : o.query_init1 = Except.ok r1)
    (h3 : o.query_pep = Except.ok ps) (hps : parsePyFloat ps = some pv)
    (h4 : o.write_rlev = Except.ok ()) (h5 : o.query_adj = Except.ok r2)
    (h6 : o.query_init2 = Except.ok r3) (h7 : o.query_evm = Except.ok es)
    (hes : parsePyFloat es = none)
    (hEvm : instr.VSA_get_EVM = Except.map (fun v => (v, t5)) (VSA_get_EVM o))
    (hpc : shouldReconfigure st.previous_config
      { waveform_file := cfg.waveform_file, setup_file := cfg.setup_file } = true)
    (hg1 : instr.VSG_Config = Except.ok ((), t1))
    (hg2 : instr.VSA_Config (cfg.center_frequency_ghz * 1000000000) = Except.ok ((), t2))
    (hg3 : instr.VSG_pwr cfg.power_dbm = Except.ok ())
    (hg4 : instr.VSA_get_info = Except.ok (info, t3))
    (hg5 : instr.VSA_sweep = Except.ok ((), t4))
    (ha : cfg.measure_aclr = false) :
    VSA_get_EVM o = Except.ok PFloat.nan ∧
    run_nr5g_measurement cfg ts instr st =
      { results := st.results ++ [ResultEntry.nr5g
          { test_set := ts, center_frequency_hz := cfg.center_frequency_ghz * 1000000000,
            power_dbm := cfg.power_dbm, evm := PFloat.nan,
            ch_pwr := none, acp_lower := none, acp_upper := none,
            alt_lower := none, alt_upper := none,
            timings := [("VSG_Config", t1), ("VSA_Config", t2), ("VSx_freq", 0),
                        ("VSA_get_info", t3), ("VSA_sweep_evm", t4),
                        ("VSA_get_EVM", t5), ("VSA_get_ACLR", 0)] }],
        previous_config := some { waveform_file := cfg.waveform_file, setup_file := cfg.setup_file },
        previous_freq := some (cfg.center_frequency_ghz * 1000000000) } := by
  have hnan : VSA_get_EVM o = Except.ok PFloat.nan := by
    simp [VSA_get_EVM, VSA_get_EVM_body, h1, h2, h3, hps, h4, h5, h6, h7, hes]
  have hEvm' : instr.VSA_get_EVM = Except.ok (PFloat.nan, t5) := by
    rw [hEvm, hnan]; rfl
  exact ⟨hnan, run_evm_ok_reconfig cfg ts instr st info PFloat.nan t1 t2 t3 t4 t5
    hpc hg1 hg2 hg3 hg4 hg5 hEvm' ha⟩

/-- Witness for C8: a first NR5G test set whose EVM read-back is the
string `N/A` still appends its record, with `evm = NaN`. -/
theorem measure_evm_nan_still_appended_witness :
    nanEvmOracle.query_evm = Except.ok "N/A" ∧
    VSA_get_EVM nanEvmOracle = Except.ok PFloat.nan ∧
    (run_nr5g_measurement sampleCfg 1 nanEvmInstr emptyState).results =
      [ResultEntry.nr5g nanEvmRec] := by
  have hps : parsePyFloat "7" = some 7 := by
    have hp : parsePyFloatParts "7" =
        some { neg := false, ip := ['7'], fp := [], eneg := false, ed := none } := by decide
    have h1 : digitsVal ['7'] = 7 := by decide
    have h2 : digitsVal ([] : List Char) = 0 := by decide
    rw [parsePyFloat, hp]
    norm_num [floatPartsVal, h1, h2]
  have h := measure_evm_nan_still_appended nanEvmOracle nanEvmInstr sampleCfg 1 emptyState
    "1" "7" "1" "1" "N/A" "cfg" 7 1 2 4 5 6
    rfl rfl rfl hps rfl rfl rfl rfl (by decide) rfl
    (by simp [emptyState, shouldReconfigure_none_true])
    rfl rfl rfl rfl rfl rfl
  refine ⟨rfl, h.1, ?_⟩
  rw [h.2]
  norm_num [emptyState, nanEvmRec, sampleCfg]
